import Mathlib

/-!
Verification development for the `nuxt-arpix-db-connect` repository.

The repository contains two variants of a Hasura-oriented GraphQL service
plus a token manager:

* `src/src/runtime/database/hasura/graphql-service.ts` ("variant A"):
  document builders `createQuery`, `createInsertMutation`,
  `createUpdateMutation`, `createDeleteMutation`, `createBatchMutation`
  based on `JSON.stringify` plus quote-stripping regexes, and the
  `GraphQLService` methods `get` / `insert` / `update` / `delete` / `batch`.
  Embedded below in namespace `ServiceA`.
* `src/unnamed/part_005` ("variant B"): a `GraphQLService` whose methods
  build documents inline using the recursive serializer
  `objectToGraphQLParams`.  Embedded below in namespace `ServiceB`.
* `src/unnamed/part_010`: the `TokenManager` class.  Embedded below in
  namespace `TokenManager` as explicit state passing; the cooperative
  single-threaded scheduling of the host runtime (spec §5) is modelled by
  making every synchronous prefix of a method one atomic step.

Effect modelling: methods that build a document and then hand it to the
network layer (`this.mutate` / `this.query`) are embedded as functions into
`Except SvcError String`; a `.ok doc` result means exactly one network
request carrying `doc` is issued, while `.error e` means the method threw
before any network call.  Similarly the token manager state counts network
calls in a `networkCalls` field that `performRefresh` increments.
-/

/-! ## Generic string helpers -/

/-- JavaScript `Array.prototype.join(sep)`. -/
def jsJoin (sep : String) : List String → String
  | [] => ""
  | [x] => x
  | x :: y :: xs => x ++ sep ++ jsJoin sep (y :: xs)

/-- Concatenation of a list of strings. -/
def concatAll : List String → String
  | [] => ""
  | x :: xs => x ++ concatAll xs

/-- Count occurrences of a character in a string. -/
def countChar (s : String) (c : Char) : Nat :=
  (s.data.filter (fun d => d = c)).length

/-- Does the first list start with the second one? -/
def charsStartWith : List Char → List Char → Bool
  | _, [] => true
  | [], _ :: _ => false
  | b :: bs, a :: as => a = b && charsStartWith bs as

/-- Does the first list contain the second one as a contiguous run? -/
def charsContain (needle : List Char) : List Char → Bool
  | [] => needle.isEmpty
  | c :: rest => charsStartWith (c :: rest) needle || charsContain needle rest

/-- Substring test on strings (true iff `needle` occurs in `hay`). -/
def strContains (hay needle : String) : Bool :=
  charsContain needle.data hay.data

/-! ## GraphQL lexical equivalence

GraphQL treats commas, spaces, tabs and line terminators as insignificant
token separators, so two documents are lexically equivalent iff they
produce the same token streams.  `gqlTokens` is a small GraphQL lexer
(names/numbers, single-character punctuators, `"`-delimited string values
with backslash escapes); `stripInsig` is the coarser normalisation that
just deletes the insignificant characters, used where token boundaries are
already guaranteed by punctuators. -/

/-- Characters GraphQL ignores between tokens (white space and commas). -/
def insigChar (c : Char) : Bool :=
  c = ' ' || c = '\n' || c = '\t' || c = '\r' || c = ','

/-- Delete every insignificant character of a string. -/
def stripInsig (s : String) : String :=
  String.mk (s.data.filter (fun c => !insigChar c))

/-- Single-character GraphQL punctuators relevant to the built documents. -/
def gqlPunct (c : Char) : Bool :=
  c = Char.ofNat 123 || c = Char.ofNat 125 || c = '(' || c = ')' ||
  c = '[' || c = ']' || c = ':'

/-- Lexer state: tokens emitted so far, current partial token, whether we
are inside a string value, and whether the previous character was a
backslash escape inside a string. -/
structure LexSt where
  toks : List String
  cur : List Char
  inStr : Bool
  esc : Bool

/-- Emit the pending partial token, if any. -/
def lexFlush (st : LexSt) : LexSt :=
  if st.cur.isEmpty then st
  else { st with toks := st.toks ++ [String.mk st.cur], cur := [] }

/-- Process one character of a GraphQL document. -/
def lexStep (st : LexSt) (c : Char) : LexSt :=
  if st.inStr then
    if st.esc then { st with cur := st.cur ++ [c], esc := false }
    else if c = '\\' then { st with cur := st.cur ++ [c], esc := true }
    else if c = '"' then
      { st with toks := st.toks ++ [String.mk (st.cur ++ [c])], cur := [],
                inStr := false }
    else { st with cur := st.cur ++ [c] }
  else if insigChar c then lexFlush st
  else if gqlPunct c then
    let st := lexFlush st
    { st with toks := st.toks ++ [String.mk [c]] }
  else if c = '"' then
    let st := lexFlush st
    { st with cur := ['"'], inStr := true }
  else { st with cur := st.cur ++ [c] }

/-- Token stream of a GraphQL document. -/
def gqlTokens (s : String) : List String :=
  (lexFlush (s.data.foldl lexStep ⟨[], [], false, false⟩)).toks

/-! ## JavaScript value model

`GValue` models the runtime JavaScript values that reach the serializers:
`null`, `undefined`, booleans, numbers (integral — the repository only
ever serializes integral numbers), strings, arrays and plain objects.
Arrays and objects use the mutual spine types `GArr`/`GObj` so that all
recursions below are structural (hence kernel-computable). -/

mutual
inductive GValue where
  | nullV : GValue
  | undefV : GValue
  | boolV (b : Bool) : GValue
  | numV (n : Int) : GValue
  | strV (s : String) : GValue
  | arrV (items : GArr) : GValue
  | objV (fields : GObj) : GValue
inductive GArr where
  | nil : GArr
  | cons (v : GValue) (rest : GArr) : GArr
inductive GObj where
  | nil : GObj
  | cons (k : String) (v : GValue) (rest : GObj) : GObj
end

/-- Build an array spine from a list. -/
def GArr.ofList : List GValue → GArr
  | [] => .nil
  | v :: vs => .cons v (GArr.ofList vs)

/-- Build an object spine from an association list. -/
def GObj.ofList : List (String × GValue) → GObj
  | [] => .nil
  | (k, v) :: kvs => .cons k v (GObj.ofList kvs)

/-- Number of elements of an array value. -/
def GArr.length : GArr → Nat
  | .nil => 0
  | .cons _ rest => 1 + rest.length

/-- Number of own keys of an object value. -/
def GObj.length : GObj → Nat
  | .nil => 0
  | .cons _ _ rest => 1 + rest.length

/-- JavaScript truthiness (`!v` is `true` exactly on these values): `null`,
`undefined`, `false`, `0` and the empty string are falsy; every object and
array is truthy. -/
def jsFalsy : GValue → Bool
  | .nullV => true
  | .undefV => true
  | .boolV b => !b
  | .numV n => n = 0
  | .strV s => s = ""
  | .arrV _ => false
  | .objV _ => false

/-- `Object.keys(v).length` for the values the validation guards receive:
object keys, array indices, string positions; `0` on other primitives. -/
def jsKeysLength : GValue → Nat
  | .objV fields => fields.length
  | .arrV items => items.length
  | .strV s => s.length
  | _ => 0

/-! ## JSON string quoting (the escaping `JSON.stringify` applies) -/

/-- Lower-case hexadecimal digit. -/
def hexDigitChar (n : Nat) : Char :=
  if n < 10 then Char.ofNat (48 + n) else Char.ofNat (87 + n)

/-- Escape one character the way `JSON.stringify` does inside a string
literal. -/
def jsonEscapeChar (c : Char) : String :=
  if c = '"' then "\\\""
  else if c = '\\' then "\\\\"
  else if c = '\n' then "\\n"
  else if c = '\r' then "\\r"
  else if c = '\t' then "\\t"
  else if c = Char.ofNat 8 then "\\b"
  else if c = Char.ofNat 12 then "\\f"
  else if c.toNat < 32 then
    "\\u00" ++ String.mk [hexDigitChar (c.toNat / 16), hexDigitChar (c.toNat % 16)]
  else String.mk [c]

/-- `JSON.stringify` rendering of a string (quotes plus escapes). -/
def jsonQuote (s : String) : String :=
  "\"" ++ concatAll (s.data.map jsonEscapeChar) ++ "\""

/-! ## Variant B argument serializer (part_005 `objectToGraphQLParams`)

Source (part_005, lines 545-568): `null`/`undefined` return the literal
`null`; non-objects return `JSON.stringify(obj)`; arrays map recursively
and join with `", "` inside brackets; objects map `Object.entries` to
`key: value` (the `key.startsWith('_')` branch of the source produces the
same text as the default branch) and join with `", "` inside braces.
`Object.entries` of an object keeps a field whose value is `undefined`
(the recursive call then renders it as `null`). -/

mutual
def objectToGraphQLParams : GValue → String
  | .nullV => "null"
  | .undefV => "null"
  | .boolV b => if b then "true" else "false"
  | .numV n => toString n
  | .strV s => jsonQuote s
  | .arrV items => "[" ++ jsJoin ", " (paramsArrB items) ++ "]"
  | .objV fields => "\x7b" ++ jsJoin ", " (paramsObjB fields) ++ "\x7d"
def paramsArrB : GArr → List String
  | .nil => []
  | .cons v rest => objectToGraphQLParams v :: paramsArrB rest
def paramsObjB : GObj → List String
  | .nil => []
  | .cons k v rest => (k ++ ": " ++ objectToGraphQLParams v) :: paramsObjB rest
end

/-! ## Variant B selection serializer (part_005 `objectToGraphQLSelection`)

A `true` leaf includes the bare field name, a non-null object value
includes the field with a nested selection, anything else maps to the
empty string and is removed by `filter(Boolean)`; the survivors join with
a single space.  (`null` fails the `value !== null` guard and is skipped;
an array value would be traversed by `Object.entries` over its indices, a
pathological case no caller exercises and not modelled.) -/

mutual
def objectToGraphQLSelection (fields : GObj) : String :=
  jsJoin " " (selParts fields)
def selParts : GObj → List String
  | .nil => []
  | .cons k v rest =>
    match v with
    | .boolV true => k :: selParts rest
    | .objV fs => (k ++ " \x7b " ++ objectToGraphQLSelection fs ++ " \x7d") :: selParts rest
    | _ => selParts rest
end

/-! ## Variant A serializers

Variant A builds argument text as `JSON.stringify(value)` post-processed by
regexes.  `JSON.stringify` output is compact (`,` and `:` separators, no
spaces); inside an object it drops fields whose value is `undefined`, and
inside an array it renders `undefined` as `null`.

* `serKU` models `JSON.stringify(v).replace(/"([^"]+)":/g, '$1:')`: every
  (non-empty, quote-free) object key loses its quotes.  The development
  assumes — as every caller of the repository does — that keys and string
  values contain no `"` character, so the regex strips exactly the key
  quotes.
* `serKUV` models the double replacement used for `on_conflict` in
  `createInsertMutation`: after the key regex, `/"(\w+)"(?=\s*[,}\]])/g`
  also strips the quotes of every string *value* made of word characters
  (values are exactly the quoted runs followed by `,`, `}` or `]`).
* `serOrderA` models `JSON.stringify(v).replace(/"([^"]+)":\s*"([^"]+)"/g,
  '$1: $2')` used for `order_by`: only `key:"string"` pairs with non-empty
  key and value lose their quotes (gaining a space after the colon);
  everything else keeps its compact JSON form. -/

mutual
def serKU : GValue → String
  | .nullV => "null"
  | .undefV => "null"
  | .boolV b => if b then "true" else "false"
  | .numV n => toString n
  | .strV s => jsonQuote s
  | .arrV items => "[" ++ jsJoin "," (serKUArr items) ++ "]"
  | .objV fields => "\x7b" ++ jsJoin "," (serKUObj fields) ++ "\x7d"
def serKUArr : GArr → List String
  | .nil => []
  | .cons v rest => serKU v :: serKUArr rest
def serKUObj : GObj → List String
  | .nil => []
  | .cons k v rest =>
    match v with
    | .undefV => serKUObj rest
    | v' => (k ++ ":" ++ serKU v') :: serKUObj rest
end

/-- Is every character a `\w` (word) regex character? -/
def allWordChars (s : String) : Bool :=
  s.data.all (fun c => c.isAlphanum || c = '_')

mutual
def serKUV : GValue → String
  | .nullV => "null"
  | .undefV => "null"
  | .boolV b => if b then "true" else "false"
  | .numV n => toString n
  | .strV s => if s ≠ "" && allWordChars s then s else jsonQuote s
  | .arrV items => "[" ++ jsJoin "," (serKUVArr items) ++ "]"
  | .objV fields => "\x7b" ++ jsJoin "," (serKUVObj fields) ++ "\x7d"
def serKUVArr : GArr → List String
  | .nil => []
  | .cons v rest => serKUV v :: serKUVArr rest
def serKUVObj : GObj → List String
  | .nil => []
  | .cons k v rest =>
    match v with
    | .undefV => serKUVObj rest
    | v' => (k ++ ":" ++ serKUV v') :: serKUVObj rest
end

mutual
def serOrderA : GValue → String
  | .nullV => "null"
  | .undefV => "null"
  | .boolV b => if b then "true" else "false"
  | .numV n => toString n
  | .strV s => jsonQuote s
  | .arrV items => "[" ++ jsJoin "," (serOrderAArr items) ++ "]"
  | .objV fields => "\x7b" ++ jsJoin "," (serOrderAObj fields) ++ "\x7d"
def serOrderAArr : GArr → List String
  | .nil => []
  | .cons v rest => serOrderA v :: serOrderAArr rest
def serOrderAObj : GObj → List String
  | .nil => []
  | .cons k v rest =>
    match v with
    | .undefV => serOrderAObj rest
    | .strV s =>
      (if k ≠ "" && s ≠ "" then k ++ ": " ++ s
       else jsonQuote k ++ ":" ++ jsonQuote s) :: serOrderAObj rest
    | v' => (jsonQuote k ++ ":" ++ serOrderA v') :: serOrderAObj rest
end

/-! ## Shared service-level argument types -/

/-- Error taxonomy relevant to the embedded methods: `validationError`
models throwing the `ValidationError` subclass, `genericError` models
throwing a plain `Error`. -/
inductive SvcError where
  | validationError (msg : String)
  | genericError (msg : String)
deriving DecidableEq

/-- A `returning` argument: a single field string or a list of fields. -/
inductive RetArg where
  | one (s : String)
  | many (fs : List String)
deriving DecidableEq

/-- `if (Array.isArray(returning)) returning = returning.join(' ')`. -/
def RetArg.joinA : RetArg → String
  | .one s => s
  | .many fs => jsJoin " " fs

/-- A `select` argument: raw selection string, list of field names, or a
nested-object selection. -/
inductive SelectArg where
  | raw (s : String)
  | fieldList (fs : List String)
  | tree (t : GObj)

/-- Interpolation of an `Option String` into a template literal: `none`
(JavaScript `undefined`) interpolates as the text `undefined`. -/
def optInterp : Option String → String
  | some s => s
  | none => "undefined"

namespace ServiceA

/-!
Embedding of `src/src/runtime/database/hasura/graphql-service.ts`.
-/

/-- The argument clauses of `createQuery` in source order: `where`,
`limit`, `offset`, `order_by`, each pushed only when the argument is
truthy (so `limit: 0`, `offset: 0` and a falsy `orderBy` are omitted). -/
def createQueryArgs (whereC : Option GObj) (limit offset : Option Int)
    (orderBy : Option GValue) : List String :=
  (match whereC with
   | some w => ["where: " ++ serKU (.objV w)]
   | none => []) ++
  (match limit with
   | some l => if l ≠ 0 then ["limit: " ++ toString l] else []
   | none => []) ++
  (match offset with
   | some o => if o ≠ 0 then ["offset: " ++ toString o] else []
   | none => []) ++
  (match orderBy with
   | some ob => if jsFalsy ob then [] else ["order_by: " ++ serOrderA ob]
   | none => [])

/-- The argument group `` `${args.length ? `(${args.join(", ")})` : ''}` ``
that `createQuery` splices twice: one parenthesis group with the clauses
joined by `", "`, or nothing at all when no clause is present. -/
def argPart (whereC : Option GObj) (limit offset : Option Int)
    (orderBy : Option GValue) : String :=
  let args := createQueryArgs whereC limit offset orderBy
  if args.isEmpty then "" else "(" ++ jsJoin ", " args ++ ")"

/-- `createQuery` (lines 42-68): arguments joined with `", "` inside one
parenthesis group when present, and an optional `{table}_aggregate` block
appended to the field list when `aggregate` is truthy. -/
def createQuery (tableName select : String) (whereC : Option GObj)
    (limit offset : Option Int) (orderBy : Option GValue)
    (aggregate : Option String) : String :=
  let fields := tableName ++ argPart whereC limit offset orderBy ++
    " \x7b " ++ select ++ " \x7d"
  let fields :=
    match aggregate with
    | some a =>
      if a = "" then fields
      else fields ++ "\n            " ++ tableName ++ "_aggregate" ++
        argPart whereC limit offset orderBy ++
        " \x7b\n                " ++ a ++ "\n            \x7d\n        "
    | none => fields
  "query \x7b " ++ fields ++ " \x7d"

/-- `createInsertMutation` (lines 70-93): throws a plain
`Error('error.insertMissingData')` on falsy or empty-array data, wraps a
non-array record into a one-element array, and emits `objects:` plus an
optional `on_conflict:` argument (the latter with the value-unquoting
double regex). -/
def createInsertMutation (tableName : String) (data : GValue)
    (onConflict : Option GValue) (returning : String) :
    Except SvcError String :=
  if jsFalsy data then .error (.genericError "error.insertMissingData")
  else
    let items := match data with
      | .arrV items => items
      | v => GArr.cons v .nil
    if items.length = 0 then .error (.genericError "error.insertMissingData")
    else
      let args := ["objects: " ++ serKU (.arrV items)] ++
        (match onConflict with
         | some c => if jsFalsy c then [] else ["on_conflict: " ++ serKUV c]
         | none => [])
      .ok ("\n        mutation \x7b\n            insert_" ++ tableName ++ "(" ++
        jsJoin ", " args ++ ") \x7b\n                " ++ returning ++
        "\n            \x7d\n        \x7d\n    ")

/-- `createUpdateMutation` (lines 95-111): no validation of its own. -/
def createUpdateMutation (tableName : String) (data whereC : GValue)
    (returning : String) : String :=
  "\n        mutation \x7b\n            update_" ++ tableName ++
  "(\n                where: " ++ serKU whereC ++
  ",\n                _set: " ++ serKU data ++
  "\n            ) \x7b\n                " ++ returning ++
  "\n            \x7d\n        \x7d\n    "

/-- `createDeleteMutation` (lines 132-144): no validation of its own. -/
def createDeleteMutation (tableName : String) (whereC : GValue)
    (returning : String) : String :=
  "\n        mutation \x7b\n            delete_" ++ tableName ++
  "(where: " ++ serKU whereC ++ ") \x7b\n                " ++ returning ++
  "\n            \x7d\n        \x7d\n    "

/-- The file-local `BatchOperation` union of variant A (lines 20-40); it
has no `alias` field.  `unknownTag` models a runtime value whose `type` is
none of the three known tags, which the `switch` default rejects. -/
inductive BatchOp where
  | insert (table : String) (data : GValue) (onConflict : Option GValue)
      (returning : Option String)
  | update (table : String) (data whereC : GValue) (returning : Option String)
  | delete (table : String) (whereC : GValue) (returning : Option String)
  | unknownTag (tag : String)

/-- `op.returning || 'affected_rows'` (an empty string is falsy). -/
def retOr : Option String → String
  | some s => if s = "" then "affected_rows" else s
  | none => "affected_rows"

/-- One aliased field of `createBatchMutation` (lines 242-278); the alias
is always `op{index}`, and all serialization uses the key-only regex
(`serKU`), including `on_conflict` and a non-normalized `objects:`. -/
def batchField (idx : Nat) : BatchOp → Except SvcError String
  | .insert table data onConflict returning =>
    .ok ("\n                        op" ++ toString idx ++ ": insert_" ++ table ++
      "(\n                            objects: " ++ serKU data ++
      "\n                            " ++
      (match onConflict with
       | some c => if jsFalsy c then "" else ", on_conflict: " ++ serKU c
       | none => "") ++
      "\n                        ) \x7b\n                            " ++
      retOr returning ++
      "\n                        \x7d\n                    ")
  | .update table data whereC returning =>
    .ok ("\n                        op" ++ toString idx ++ ": update_" ++ table ++
      "(\n                            where: " ++ serKU whereC ++
      "\n                            _set: " ++ serKU data ++
      "\n                        ) \x7b\n                            " ++
      retOr returning ++
      "\n                        \x7d\n                    ")
  | .delete table whereC returning =>
    .ok ("\n                        op" ++ toString idx ++ ": delete_" ++ table ++
      "(\n                            where: " ++ serKU whereC ++
      "\n                        ) \x7b\n                            " ++
      retOr returning ++
      "\n                        \x7d\n                    ")
  | .unknownTag _ => .error (.validationError "error.invalidOperationType")

/-- The indexed `operations.map(...)` of `createBatchMutation`; a thrown
`ValidationError` aborts the whole map. -/
def batchFields (idx : Nat) : List BatchOp → Except SvcError (List String)
  | [] => .ok []
  | op :: rest =>
    match batchField idx op with
    | .error e => .error e
    | .ok f =>
      match batchFields (idx + 1) rest with
      | .error e => .error e
      | .ok fs => .ok (f :: fs)

/-- `createBatchMutation` (lines 242-278). -/
def createBatchMutation (ops : List BatchOp) : Except SvcError String :=
  match batchFields 0 ops with
  | .error e => .error e
  | .ok ms => .ok ("mutation \x7b " ++ jsJoin "\n" ms ++ " \x7d")

/-- Template-literal interpolation `${select}` used by variant A's `get`:
an array stringifies with comma separators, an object as
`[object Object]`. -/
def selectInterp : SelectArg → String
  | .raw s => s
  | .fieldList fs => jsJoin "," fs
  | .tree _ => "[object Object]"

/-- `GraphQLService.get` (lines 294-309): builds the document with
`createQuery` and issues it as the network query. -/
def get (tableName : String) (select : SelectArg) (whereC : Option GObj)
    (limit offset : Option Int) (orderBy : Option GValue)
    (aggregate : Option String) : String :=
  createQuery tableName (selectInterp select) whereC limit offset orderBy aggregate

/-- `GraphQLService.insert` (lines 311-330): joins an array `returning`
with spaces, then builds via `createInsertMutation` (whose throw happens
before the network call). -/
def insert (tableName : String) (data : GValue) (onConflict : Option GValue)
    (returning : RetArg) : Except SvcError String :=
  createInsertMutation tableName data onConflict returning.joinA

/-- `GraphQLService.update` (lines 332-342): throws
`ValidationError('error.whereClauseRequired')` when `where` is falsy or
has no keys; the patch `data` is not validated. -/
def update (tableName : String) (data whereC : GValue) (returning : String) :
    Except SvcError String :=
  if jsFalsy whereC || jsKeysLength whereC = 0 then
    .error (.validationError "error.whereClauseRequired")
  else .ok (createUpdateMutation tableName data whereC returning)

/-- `GraphQLService.delete` (lines 354-363): throws
`ValidationError('error.whereClauseRequired')` when `where` is falsy or
has no keys. -/
def delete (tableName : String) (whereC : GValue) (returning : String) :
    Except SvcError String :=
  if jsFalsy whereC || jsKeysLength whereC = 0 then
    .error (.validationError "error.whereClauseRequired")
  else .ok (createDeleteMutation tableName whereC returning)

/-- `GraphQLService.batch` (lines 365-375): rejects an empty operation
list with `ValidationError` before building, then builds via
`createBatchMutation`. -/
def batch (ops : List BatchOp) : Except SvcError String :=
  if ops.isEmpty then .error (.validationError "error.noOperationsBatchProvided")
  else createBatchMutation ops

end ServiceA

namespace ServiceB

/-!
Embedding of the `GraphQLService` of `src/unnamed/part_005`.
-/

/-- The `select` preprocessing of `get` (lines 258-264): arrays join with
a space, objects go through `objectToGraphQLSelection`. -/
def selectStr : SelectArg → String
  | .raw s => s
  | .fieldList fs => jsJoin " " fs
  | .tree t => objectToGraphQLSelection t

/-- Truthiness of an optional number argument (`where || limit` style
guards): present and non-zero. -/
def optNumTruthy : Option Int → Bool
  | some n => n ≠ 0
  | none => false

/-- The `orderBy` rendering of `get` (lines 286-292): an array maps its
elements through `objectToGraphQLParams` and joins with `", "` inside
brackets, anything else is serialized directly. -/
def orderByStr : GValue → String
  | .arrV items => "[" ++ jsJoin ", " (paramsArrB items) ++ "]"
  | v => objectToGraphQLParams v

/-- `GraphQLService.get` (lines 245-319), transcribed clause by clause.
The `where` clause closes its own parenthesis; the `limit`, `offset` and
`order_by` clauses open/close a parenthesis only when every *truthy*
earlier argument is absent; a final `)` is appended under the source's
three-way condition; when `aggregate` is truthy the selection block is an
`aggregate` sub-block replacing `selectStr`.  The returned document is
issued as the network query. -/
def get (tableName : String) (select : SelectArg) (whereC : Option GObj)
    (limit offset : Option Int) (orderBy : Option GValue)
    (aggregate : Option String) : String :=
  let sel := selectStr select
  let wT := whereC.isSome
  let lT := optNumTruthy limit
  let oT := optNumTruthy offset
  let obT := match orderBy with
    | some ob => !jsFalsy ob
    | none => false
  let q := "query \x7b\n      " ++ tableName
  let q := match whereC with
    | some w => q ++ "(where: " ++ objectToGraphQLParams (.objV w) ++ ")"
    | none => q
  let q := match limit with
    | some l =>
      q ++ (if wT then "" else "(") ++ "limit: " ++ toString l ++
        (if wT then "" else ")")
    | none => q
  let q := match offset with
    | some o =>
      q ++ (if wT || lT then "" else "(") ++ "offset: " ++ toString o ++
        (if wT || lT then "" else ")")
    | none => q
  let q := match orderBy with
    | some ob =>
      if jsFalsy ob then q
      else
        q ++ (if wT || lT || oT then "" else "(") ++ "order_by: " ++
          orderByStr ob ++ (if wT || lT || oT then "" else ")")
    | none => q
  let q :=
    if (wT && (lT || oT || obT)) ||
       (!wT && lT && (oT || obT)) ||
       (!wT && !lT && oT && obT) then q ++ ")" else q
  let q := match aggregate with
    | some a =>
      if a = "" then q ++ " \x7b\n        " ++ sel ++ "\n      \x7d"
      else q ++ " \x7b\n        aggregate \x7b\n          " ++ a ++
        "\n        \x7d\n      \x7d"
    | none => q ++ " \x7b\n        " ++ sel ++ "\n      \x7d"
  q ++ "\n    \x7d"

/-- The `OnConflictClause` of the shared database interface:
`constraint?: string`, `update_columns: string[]`, `where?: WhereClause`. -/
structure ConflictB where
  constraint : Option String
  update_columns : List String
  whereC : Option GValue

/-- `GraphQLService.insert` (lines 329-374): only a falsy `data` is
rejected (with `ValidationError`); an empty array passes the guard and is
serialized as `objects: []`.  A non-array record is wrapped into a
one-element array before serialization. -/
def insert (tableName : String) (data : GValue) (onConflict : Option ConflictB)
    (returning : RetArg) : Except SvcError String :=
  if jsFalsy data then
    .error (.validationError "Data is required for insert operation")
  else
    let ret := returning.joinA
    let items := match data with
      | .arrV items => items
      | v => GArr.cons v .nil
    let m := "mutation \x7b\n      insert_" ++ tableName ++ "(" ++
      "objects: " ++ objectToGraphQLParams (.arrV items)
    let m := m ++
      (match onConflict with
       | some c =>
         ", on_conflict: \x7b\n        constraint: " ++ optInterp c.constraint ++
         ",\n        update_columns: [" ++ jsJoin ", " c.update_columns ++ "]" ++
         (match c.whereC with
          | some w =>
            if jsFalsy w then "" else ",\n        where: " ++ objectToGraphQLParams w
          | none => "") ++
         "\n      \x7d"
       | none => "")
    .ok (m ++ ") \x7b\n      " ++ ret ++ "\n    \x7d\n    \x7d")

/-- `GraphQLService.update` (lines 384-415): rejects an empty/absent patch
first, then an empty/absent filter, both with `ValidationError`, before
any network call. -/
def update (tableName : String) (data whereC : GValue) (returning : RetArg) :
    Except SvcError String :=
  if jsFalsy data || jsKeysLength data = 0 then
    .error (.validationError "Data is required for update operation")
  else if jsFalsy whereC || jsKeysLength whereC = 0 then
    .error (.validationError "Where clause is required for update operation")
  else
    let ret := returning.joinA
    .ok ("mutation \x7b\n      update_" ++ tableName ++
      "(\n        _set: " ++ objectToGraphQLParams data ++
      ",\n        where: " ++ objectToGraphQLParams whereC ++
      "\n      ) \x7b\n        " ++ ret ++ "\n      \x7d\n    \x7d")

/-- `GraphQLService.delete` (lines 459-484): rejects an empty/absent
filter with `ValidationError` before any network call. -/
def delete (tableName : String) (whereC : GValue) (returning : RetArg) :
    Except SvcError String :=
  if jsFalsy whereC || jsKeysLength whereC = 0 then
    .error (.validationError "Where clause is required for delete operation")
  else
    let ret := returning.joinA
    .ok ("mutation \x7b\n      delete_" ++ tableName ++
      "(\n        where: " ++ objectToGraphQLParams whereC ++
      "\n      ) \x7b\n        " ++ ret ++ "\n      \x7d\n    \x7d")

/-- The interface `BatchOperation` (database.interface.ts lines 210-233):
each variant carries an optional `alias`.  `unknownTag` models a runtime
value with an unrecognized `type` tag. -/
inductive BatchOpB where
  | insert (table : String) (data : GValue) (onConflict : Option ConflictB)
      (returning : Option String) (aliasOpt : Option String)
  | update (table : String) (data whereC : GValue) (returning : Option String)
      (aliasOpt : Option String)
  | delete (table : String) (whereC : GValue) (returning : Option String)
      (aliasOpt : Option String)
  | unknownTag (tag table : String) (aliasOpt : Option String)

/-- The `alias` field of an operation. -/
def BatchOpB.aliasArg : BatchOpB → Option String
  | .insert _ _ _ _ a => a
  | .update _ _ _ _ a => a
  | .delete _ _ _ a => a
  | .unknownTag _ _ a => a

/-- The `type` tag of an operation. -/
def BatchOpB.typeTag : BatchOpB → String
  | .insert .. => "insert"
  | .update .. => "update"
  | .delete .. => "delete"
  | .unknownTag tag _ _ => tag

/-- The `table` of an operation. -/
def BatchOpB.tableOf : BatchOpB → String
  | .insert t .. => t
  | .update t .. => t
  | .delete t .. => t
  | .unknownTag _ t _ => t

/-- ``const alias = op.alias || `${op.type}_${op.table}` `` (line 497): an
explicit alias wins unless it is falsy (the empty string), in which case
the synthesized `{type}_{table}` name is used. -/
def opAlias (op : BatchOpB) : String :=
  match op.aliasArg with
  | some a => if a = "" then op.typeTag ++ "_" ++ op.tableOf else a
  | none => op.typeTag ++ "_" ++ op.tableOf

/-- `op.returning || 'affected_rows'` (an empty string is falsy). -/
def retOrB : Option String → String
  | some s => if s = "" then "affected_rows" else s
  | none => "affected_rows"

/-- One aliased field of `batch` (lines 496-535); the insert arm
normalizes a non-array `data` into a one-element array, and the default
arm throws `ValidationError('Invalid operation type')`. -/
def batchField : BatchOpB → Except SvcError String
  | op@(.insert table data onConflict returning _) =>
    let items := match data with
      | .arrV items => items
      | v => GArr.cons v .nil
    .ok ("\n            " ++ opAlias op ++ ": insert_" ++ table ++
      "(\n              objects: " ++ objectToGraphQLParams (.arrV items) ++
      ",\n              " ++
      (match onConflict with
       | some c =>
         "on_conflict: \x7b\n                    constraint: " ++
         optInterp c.constraint ++
         ",\n                    update_columns: [" ++
         jsJoin ", " c.update_columns ++ "]\n                    " ++
         (match c.whereC with
          | some w =>
            if jsFalsy w then "" else ", where: " ++ objectToGraphQLParams w
          | none => "") ++
         "\n                  \x7d"
       | none => "") ++
      "\n            ) \x7b\n              " ++ retOrB returning ++
      "\n            \x7d\n          ")
  | op@(.update table data whereC returning _) =>
    .ok ("\n            " ++ opAlias op ++ ": update_" ++ table ++
      "(\n              _set: " ++ objectToGraphQLParams data ++
      ",\n              where: " ++ objectToGraphQLParams whereC ++
      "\n            ) \x7b\n              " ++ retOrB returning ++
      "\n            \x7d\n          ")
  | op@(.delete table whereC returning _) =>
    .ok ("\n            " ++ opAlias op ++ ": delete_" ++ table ++
      "(\n              where: " ++ objectToGraphQLParams whereC ++
      "\n            ) \x7b\n              " ++ retOrB returning ++
      "\n            \x7d\n          ")
  | .unknownTag _ _ _ => .error (.validationError "Invalid operation type")

/-- The `operations.map(...)` of `batch`; a thrown error aborts the map. -/
def batchFieldList : List BatchOpB → Except SvcError (List String)
  | [] => .ok []
  | op :: rest =>
    match batchField op with
    | .error e => .error e
    | .ok f =>
      match batchFieldList rest with
      | .error e => .error e
      | .ok fs => .ok (f :: fs)

/-- `GraphQLService.batch` (lines 491-538): rejects an empty operation
list with `ValidationError`, then joins the aliased fields into one
mutation document. -/
def batch (ops : List BatchOpB) : Except SvcError String :=
  if ops.isEmpty then .error (.validationError "No operations provided for batch")
  else
    match batchFieldList ops with
    | .error e => .error e
    | .ok ms => .ok ("mutation \x7b " ++ jsJoin "\n" ms ++ " \x7d")

end ServiceB

namespace TokenManager

/-!
Embedding of the `TokenManager` class of `src/unnamed/part_010`.

The class is used in the host runtime's single-threaded cooperative
scheduler (spec §5): a method body runs atomically up to its first
`await`.  `getValidToken` and `refreshToken` contain no `await` before
`refreshToken` either returns the already-in-flight promise or creates
the new one, so each `getValidToken` call is one atomic step on the
state.  Promises are identified by numbers drawn from `nextPromiseId`;
`performRefresh` issues its `fetch` immediately, which `networkCalls`
counts; the eventual resolution of a promise is a single value shared by
every caller awaiting it (modelled by an outcome function `Nat → α` in the
theorems below).
-/

/-- The mutable state of one `TokenManager` instance together with its two
client-side token stores. -/
structure TMState where
  cookie : Option String
  localStore : Option String
  refreshEndpoint : Option String
  isRefreshing : Bool
  refreshPromise : Option Nat
  nextPromiseId : Nat
  networkCalls : Nat
deriving DecidableEq

/-- What one `getValidToken` step returns to its caller: no token
(`null`), an immediately valid stored token, the identity of the refresh
promise it awaits (either the pre-existing in-flight one, `joined`, or a
freshly created one, `startedRefresh`), or a synchronous throw. -/
inductive GVTResult where
  | noToken
  | token (t : String)
  | joined (p : Nat)
  | startedRefresh (p : Nat)
  | thrown (msg : String)
deriving DecidableEq

/-- `getToken` (lines 46-58): the cookie value wins when truthy, then the
`localStorage` value when truthy, else `null`. -/
def getToken (s : TMState) : Option String :=
  match s.cookie with
  | some c =>
    if c ≠ "" then some c
    else
      match s.localStore with
      | some l => if l ≠ "" then some l else none
      | none => none
  | none =>
    match s.localStore with
    | some l => if l ≠ "" then some l else none
    | none => none

/-- `isTokenValid` (lines 76-94).  `decode` models the external `jwtDecode`
call: `none` is a decoding throw (caught, yielding `false`), `some none`
is a token without an `exp` claim (treated as valid), `some (some e)` is a
decoded expiry `e` in seconds.  `now` is `Math.floor(Date.now() / 1000)`
and the buffer is 60 seconds. -/
def isTokenValid (decode : String → Option (Option Nat)) (now : Nat)
    (token : String) : Bool :=
  match decode token with
  | none => false
  | some none => true
  | some (some e) => decide (e > now + 60)

/-- The synchronous prefix of `refreshToken` (lines 99-119): return the
existing promise when a refresh is already in flight, throw when no
refresh endpoint is configured, otherwise set the in-flight flag/promise
and start `performRefresh`, whose `fetch` is one network call. -/
def refreshToken (s : TMState) : GVTResult × TMState :=
  if s.isRefreshing && s.refreshPromise.isSome then
    match s.refreshPromise with
    | some p => (.joined p, s)
    | none => (.thrown "unreachable", s)
  else
    match s.refreshEndpoint with
    | none => (.thrown "No refresh endpoint configured", s)
    | some _ =>
      (.startedRefresh s.nextPromiseId,
       { s with isRefreshing := true,
                refreshPromise := some s.nextPromiseId,
                nextPromiseId := s.nextPromiseId + 1,
                networkCalls := s.networkCalls + 1 })

/-- `getValidToken` (lines 16-41): no token and no endpoint returns
`null`; no token with an endpoint refreshes; a stored valid token is
returned as is; a stored invalid token refreshes when an endpoint exists
and otherwise returns `null`. -/
def getValidToken (decode : String → Option (Option Nat)) (now : Nat)
    (s : TMState) : GVTResult × TMState :=
  match getToken s, s.refreshEndpoint with
  | none, none => (.noToken, s)
  | none, some _ => refreshToken s
  | some t, re =>
    if isTokenValid decode now t then (.token t, s)
    else
      match re with
      | some _ => refreshToken s
      | none => (.noToken, s)

/-- `clearToken` (lines 189-197): expire the cookie and remove the
`localStorage` entry; nothing else of the state is touched. -/
def clearToken (s : TMState) : TMState :=
  { s with cookie := none, localStore := none }

/-- `n` successive `getValidToken` callers, collecting each caller's
result and threading the state. -/
def runCallers (decode : String → Option (Option Nat)) (now : Nat) :
    Nat → TMState → List GVTResult × TMState
  | 0, s => ([], s)
  | n + 1, s =>
    let (r, s') := getValidToken decode now s
    let (rs, s'') := runCallers decode now n s'
    (r :: rs, s'')

/-- The value a caller eventually resolves with, given the single outcome
`f p` of each refresh promise `p`: an immediate token resolves to itself,
a caller awaiting promise `p` resolves to `f p`, a `null` return resolves
to `none`. -/
def resolveWith (f : Nat → Option String) : GVTResult → Option String
  | .noToken => none
  | .token t => some t
  | .joined p => f p
  | .startedRefresh p => f p
  | .thrown _ => none

end TokenManager

/-! ## Concrete fixtures used by witness and counterexample theorems -/

/-- A concrete stand-in for the external `jwtDecode`: `tok30` expires at
second 130, `tok120` at second 220, `tokNoExp` carries no expiry claim,
anything else fails to decode. -/
def decodeW : String → Option (Option Nat) := fun s =>
  if s = "tok30" then some (some 130)
  else if s = "tok120" then some (some 220)
  else if s = "tokNoExp" then some none
  else none

/-- A token manager observed while a refresh (promise 7) is in flight; the
stored token `tok30` is inside the look-ahead window at `now = 100`. -/
def sFlight : TokenManager.TMState :=
  { cookie := some "tok30", localStore := none,
    refreshEndpoint := some "https://auth.example/refresh",
    isRefreshing := true, refreshPromise := some 7,
    nextPromiseId := 8, networkCalls := 1 }

/-- An idle token manager holding `tok30` with a refresh endpoint. -/
def sIdle : TokenManager.TMState :=
  { cookie := some "tok30", localStore := none,
    refreshEndpoint := some "https://auth.example/refresh",
    isRefreshing := false, refreshPromise := none,
    nextPromiseId := 2, networkCalls := 0 }

/-- A token manager with stale values in both stores and no refresh
endpoint configured. -/
def sPrior : TokenManager.TMState :=
  { cookie := some "stale", localStore := some "stale2",
    refreshEndpoint := none, isRefreshing := false, refreshPromise := none,
    nextPromiseId := 0, networkCalls := 3 }

/-- An idle token manager with empty stores and a refresh endpoint. -/
def sNoTok : TokenManager.TMState :=
  { cookie := none, localStore := none,
    refreshEndpoint := some "https://auth.example/refresh",
    isRefreshing := false, refreshPromise := none,
    nextPromiseId := 2, networkCalls := 0 }

/-- The filter `{role: {_eq: 'admin'}}` of the spec's end-to-end example. -/
def wRole : GObj := GObj.ofList [("role", .objV (GObj.ofList [("_eq", .strV "admin")]))]

/-- The filter `{id: {_eq: 1}}`. -/
def wId1 : GObj := GObj.ofList [("id", .objV (GObj.ofList [("_eq", .numV 1)]))]

/-- The filter `{id: {_eq: 2}}`. -/
def wId2 : GObj := GObj.ofList [("id", .objV (GObj.ofList [("_eq", .numV 2)]))]

/-! ## Normalised single-operation field shapes (proof-layer targets)

These three definitions are not translated from the source; they are the
whitespace/comma-normalised shape of one top-level field of the
single-operation documents of variant A, used to state that every field of
a batch document coincides with the corresponding single-operation shape. -/

/-- Normalised field of `createInsertMutation` (no on-conflict clause). -/
def insBodyStr (t : String) (d : GValue) (r : String) : String :=
  "insert_" ++ stripInsig t ++ "(objects:" ++ stripInsig (serKU d) ++
  ")\x7b" ++ stripInsig r ++ "\x7d"

/-- Normalised field of `createUpdateMutation`. -/
def updBodyStr (t : String) (w d : GValue) (r : String) : String :=
  "update_" ++ stripInsig t ++ "(where:" ++ stripInsig (serKU w) ++
  "_set:" ++ stripInsig (serKU d) ++ ")\x7b" ++ stripInsig r ++ "\x7d"

/-- Normalised field of `createDeleteMutation`. -/
def delBodyStr (t : String) (w : GValue) (r : String) : String :=
  "delete_" ++ stripInsig t ++ "(where:" ++ stripInsig (serKU w) ++
  ")\x7b" ++ stripInsig r ++ "\x7d"

/-! # Theorems -/

/-! ## Generic helper lemmas -/

theorem strAppend_assoc (a b c : String) : a ++ b ++ c = a ++ (b ++ c) := by
  cases a with
  | mk as =>
    cases b with
    | mk bs =>
      cases c with
      | mk cs =>
        show String.mk (as ++ bs ++ cs) = String.mk (as ++ (bs ++ cs))
        rw [List.append_assoc]

theorem strAppend_empty (a : String) : a ++ "" = a := by
  cases a with
  | mk as =>
    show String.mk (as ++ []) = String.mk as
    rw [List.append_nil]

theorem strEmpty_append (a : String) : "" ++ a = a := by
  cases a with
  | mk as =>
    show String.mk ([] ++ as) = String.mk as
    rw [List.nil_append]

theorem stripInsig_append (a b : String) :
    stripInsig (a ++ b) = stripInsig a ++ stripInsig b := by
  cases a with
  | mk as =>
    cases b with
    | mk bs =>
      show String.mk (List.filter _ (as ++ bs)) =
        String.mk (List.filter _ as ++ List.filter _ bs)
      rw [List.filter_append]

/-- Merge two adjacent literal strings inside a right-associated chain. -/
theorem strMerge (a b c : String) (h : a ++ b = c) (x : String) :
    a ++ (b ++ x) = c ++ x := by
  rw [← strAppend_assoc, h]

theorem garrOfList_length (l : List GValue) :
    (GArr.ofList l).length = l.length := by
  induction l with
  | nil => rfl
  | cons v vs ih => simp [GArr.ofList, GArr.length, ih, Nat.add_comm]

theorem paramsArrB_ofList (l : List GValue) :
    paramsArrB (GArr.ofList l) = l.map objectToGraphQLParams := by
  induction l with
  | nil => rfl
  | cons v vs ih => simp [GArr.ofList, paramsArrB, ih]

theorem paramsObjB_ofList (l : List (String × GValue)) :
    paramsObjB (GObj.ofList l) =
      l.map (fun kv => kv.1 ++ ": " ++ objectToGraphQLParams kv.2) := by
  induction l with
  | nil => rfl
  | cons kv kvs ih =>
    cases kv with
    | mk k v => simp [GObj.ofList, paramsObjB, ih]

/-! ## Claim C10 — the argument serializer -/

/-- Claim C10: for every input to the argument serializer
(`objectToGraphQLParams`, part_005 lines 545-568): `null` and `undefined`
serialize to the literal text `null`; an array serializes to a
bracket-delimited comma-separated list of its recursively serialized
elements; a mapping serializes with its keys emitted unquoted (bare
identifiers, `key: value`) and its values recursively serialized; scalars
use language-native literal syntax (strings quoted via `jsonQuote`,
numbers and booleans bare).  The final conjunct evaluates a nested
example. -/
theorem c10_argument_serializer :
    objectToGraphQLParams .nullV = "null" ∧
    objectToGraphQLParams .undefV = "null" ∧
    (∀ l : List GValue,
      objectToGraphQLParams (.arrV (GArr.ofList l)) =
        "[" ++ jsJoin ", " (l.map objectToGraphQLParams) ++ "]") ∧
    (∀ kvs : List (String × GValue),
      objectToGraphQLParams (.objV (GObj.ofList kvs)) =
        "\x7b" ++
          jsJoin ", " (kvs.map (fun kv => kv.1 ++ ": " ++ objectToGraphQLParams kv.2)) ++
          "\x7d") ∧
    (∀ s, objectToGraphQLParams (.strV s) = jsonQuote s) ∧
    jsonQuote "admin" = "\"admin\"" ∧
    (∀ b, objectToGraphQLParams (.boolV b) = if b then "true" else "false") ∧
    (∀ n : Int, objectToGraphQLParams (.numV n) = toString n) ∧
    objectToGraphQLParams
      (.objV (GObj.ofList
        [("a", .arrV (GArr.ofList [.numV 1, .nullV])),
         ("s", .strV "x"),
         ("_and", .objV (GObj.ofList []))])) =
      "\x7ba: [1, null], s: \"x\", _and: \x7b\x7d\x7d" := by
  refine ⟨rfl, rfl, ?_, ?_, fun s => rfl, rfl, fun b => rfl, fun n => rfl, by decide⟩
  · intro l
    simp [objectToGraphQLParams, paramsArrB_ofList]
  · intro kvs
    simp [objectToGraphQLParams, paramsObjB_ofList]

/-! ## Claim C2 — insert validation (corrected) -/

/-- Claim C2 (amended): `insert()` with `null` or `undefined` data fails
before any network call — with `ValidationError` in the part_005 variant
(`ServiceB`) and with a plain `Error` in the src/src variant (`ServiceA`);
`ServiceA` also rejects an empty array (again with a plain `Error`, not
`ValidationError`), while `ServiceB` lets an empty array through to the
network (see the counterexample); both variants normalize a non-array
record into a one-element sequence before serialization. -/
theorem c2_insert_validation_amended :
    (∀ t oc r, ServiceB.insert t .nullV oc r =
      .error (.validationError "Data is required for insert operation")) ∧
    (∀ t oc r, ServiceB.insert t .undefV oc r =
      .error (.validationError "Data is required for insert operation")) ∧
    (∀ t oc r, ServiceA.insert t .nullV oc r =
      .error (.genericError "error.insertMissingData")) ∧
    (∀ t oc r, ServiceA.insert t .undefV oc r =
      .error (.genericError "error.insertMissingData")) ∧
    (∀ t oc r, ServiceA.insert t (.arrV .nil) oc r =
      .error (.genericError "error.insertMissingData")) ∧
    (∀ t oc r rec, ServiceB.insert t (.objV rec) oc r =
      ServiceB.insert t (.arrV (.cons (.objV rec) .nil)) oc r) ∧
    (∀ t oc r rec, ServiceA.insert t (.objV rec) oc r =
      ServiceA.insert t (.arrV (.cons (.objV rec) .nil)) oc r) := by
  refine ⟨fun t oc r => rfl, fun t oc r => rfl, fun t oc r => rfl,
    fun t oc r => rfl, fun t oc r => rfl, fun t oc r rec => rfl,
    fun t oc r rec => rfl⟩

/-- Claim C2 counterexample: in the part_005 variant an empty sequence is
*not* rejected — `insert('users', [])` builds `objects: []` and performs
the network call (`.ok` means the document is sent), contradicting
"fails with ValidationError and performs zero network calls". -/
theorem c2_insert_counterexample :
    ServiceB.insert "users" (.arrV .nil) none (.one "affected_rows") =
      .ok "mutation \x7b\n      insert_users(objects: []) \x7b\n      affected_rows\n    \x7d\n    \x7d" := by
  rfl

/-! ## Claim C3 — update/delete validation (corrected) -/

/-- Claim C3 (amended): `update()` and `delete()` called with an empty or
absent (`null`/`undefined`/`{}`) filter always fail with `ValidationError`
and perform zero network calls, in both variants; `update()` with an empty
or absent patch fails with `ValidationError` only in the part_005 variant
(`ServiceB`) — the src/src variant (`ServiceA`) does not validate the
patch (see the counterexample). -/
theorem c3_update_delete_validation_amended :
    (∀ t d r, ServiceA.update t d .nullV r =
      .error (.validationError "error.whereClauseRequired")) ∧
    (∀ t d r, ServiceA.update t d .undefV r =
      .error (.validationError "error.whereClauseRequired")) ∧
    (∀ t d r, ServiceA.update t d (.objV .nil) r =
      .error (.validationError "error.whereClauseRequired")) ∧
    (∀ t r, ServiceA.delete t .nullV r =
      .error (.validationError "error.whereClauseRequired")) ∧
    (∀ t r, ServiceA.delete t .undefV r =
      .error (.validationError "error.whereClauseRequired")) ∧
    (∀ t r, ServiceA.delete t (.objV .nil) r =
      .error (.validationError "error.whereClauseRequired")) ∧
    (∀ t d r, ∃ m, ServiceB.update t d .nullV r = .error (.validationError m)) ∧
    (∀ t d r, ∃ m, ServiceB.update t d .undefV r = .error (.validationError m)) ∧
    (∀ t d r, ∃ m, ServiceB.update t d (.objV .nil) r = .error (.validationError m)) ∧
    (∀ t w r, ServiceB.update t .nullV w r =
      .error (.validationError "Data is required for update operation")) ∧
    (∀ t w r, ServiceB.update t .undefV w r =
      .error (.validationError "Data is required for update operation")) ∧
    (∀ t w r, ServiceB.update t (.objV .nil) w r =
      .error (.validationError "Data is required for update operation")) ∧
    (∀ t r, ServiceB.delete t .nullV r =
      .error (.validationError "Where clause is required for delete operation")) ∧
    (∀ t r, ServiceB.delete t .undefV r =
      .error (.validationError "Where clause is required for delete operation")) ∧
    (∀ t r, ServiceB.delete t (.objV .nil) r =
      .error (.validationError "Where clause is required for delete operation")) := by
  have hB : ∀ t d r (w : GValue), jsFalsy w || jsKeysLength w = 0 →
      ∃ m, ServiceB.update t d w r = .error (.validationError m) := by
    intro t d r w hw
    by_cases hd : (jsFalsy d || jsKeysLength d = 0 : Bool) = true
    · exact ⟨"Data is required for update operation", by simp [ServiceB.update, hd]⟩
    · exact ⟨"Where clause is required for update operation",
        by simp [ServiceB.update, hd, hw]⟩
  refine ⟨fun t d r => rfl, fun t d r => rfl, ?_,
    fun t r => rfl, fun t r => rfl, ?_,
    fun t d r => hB t d r .nullV (by decide),
    fun t d r => hB t d r .undefV (by decide),
    fun t d r => hB t d r (.objV .nil) (by simp [jsFalsy, jsKeysLength, GObj.length]),
    fun t w r => rfl, fun t w r => rfl, ?_,
    fun t r => rfl, fun t r => rfl, ?_⟩
  · intro t d r
    simp [ServiceA.update, jsFalsy, jsKeysLength, GObj.length]
  · intro t r
    simp [ServiceA.delete, jsFalsy, jsKeysLength, GObj.length]
  · intro t w r
    simp [ServiceB.update, jsFalsy, jsKeysLength, GObj.length]
  · intro t r
    simp [ServiceB.delete, jsFalsy, jsKeysLength, GObj.length]

/-- Claim C3 counterexample: the src/src variant's `update()` with an
*empty patch* but a non-empty filter does not fail — it builds
`_set: {}` and performs the network call, contradicting "update() called
with an empty or absent patch ... always fails with ValidationError and
performs zero network calls". -/
theorem c3_update_counterexample :
    ServiceA.update "users" (.objV .nil) (.objV wId1) "affected_rows" =
      .ok "\n        mutation \x7b\n            update_users(\n                where: \x7bid:\x7b_eq:1\x7d\x7d,\n                _set: \x7b\x7d\n            ) \x7b\n                affected_rows\n            \x7d\n        \x7d\n    " := by
  rfl

/-! ## Claim C9 — clearToken -/

/-- Claim C9: `clearToken()` clears both token stores and returns the
token manager to the Absent state (no retrievable token) from any prior
state, without triggering a refresh (network-call count and in-flight
refresh bookkeeping are untouched); a subsequent `getValidToken()` with no
refresh endpoint configured returns "no token" (`noToken`, i.e. `null`),
not an error. -/
theorem c9_clear_token (decode : String → Option (Option Nat)) (now : Nat)
    (s : TokenManager.TMState) :
    (TokenManager.clearToken s).cookie = none ∧
    (TokenManager.clearToken s).localStore = none ∧
    TokenManager.getToken (TokenManager.clearToken s) = none ∧
    (TokenManager.clearToken s).networkCalls = s.networkCalls ∧
    (TokenManager.clearToken s).isRefreshing = s.isRefreshing ∧
    (TokenManager.clearToken s).refreshPromise = s.refreshPromise ∧
    (s.refreshEndpoint = none →
      TokenManager.getValidToken decode now (TokenManager.clearToken s) =
        (.noToken, TokenManager.clearToken s) ∧
      ∀ m, (TokenManager.getValidToken decode now (TokenManager.clearToken s)).1 ≠
        .thrown m) := by
  refine ⟨rfl, rfl, rfl, rfl, rfl, rfl, fun h => ?_⟩
  have hq : TokenManager.getValidToken decode now (TokenManager.clearToken s) =
      (.noToken, TokenManager.clearToken s) := by
    simp [TokenManager.getValidToken, TokenManager.getToken, TokenManager.clearToken, h]
  exact ⟨hq, fun m => by simp [hq]⟩

/-- Claim C9 witness: evaluating the theorem on a state that holds stale
tokens in both stores and has no refresh endpoint. -/
theorem c9_clear_token_witness :
    TokenManager.getValidToken decodeW 100 (TokenManager.clearToken sPrior) =
      (.noToken, TokenManager.clearToken sPrior) :=
  ((c9_clear_token decodeW 100 sPrior).2.2.2.2.2.2 rfl).1

/-! ## Claim C8 — the 60-second look-ahead window -/

/-- Claim C8: the validity check decodes the expiry claim and treats the
token as valid when the claim is absent, and otherwise as valid iff the
decoded expiry exceeds the current time plus the 60-second look-ahead
window; hence a stored token expiring at `now + 30` triggers a refresh
(one network call starts) and a token expiring at `now + 120` is returned
as is with no refresh. -/
theorem c8_expiry_window (decode : String → Option (Option Nat)) (now : Nat) :
    (∀ tok, decode tok = some none →
      TokenManager.isTokenValid decode now tok = true) ∧
    (∀ tok e, decode tok = some (some e) →
      (TokenManager.isTokenValid decode now tok = true ↔ now + 60 < e)) ∧
    (∀ (s : TokenManager.TMState) tok ep,
      TokenManager.getToken s = some tok → s.refreshEndpoint = some ep →
      s.isRefreshing = false → s.refreshPromise = none →
      decode tok = some (some (now + 30)) →
      TokenManager.getValidToken decode now s =
        (.startedRefresh s.nextPromiseId,
         { s with isRefreshing := true,
                  refreshPromise := some s.nextPromiseId,
                  nextPromiseId := s.nextPromiseId + 1,
                  networkCalls := s.networkCalls + 1 })) ∧
    (∀ (s : TokenManager.TMState) tok,
      TokenManager.getToken s = some tok →
      decode tok = some (some (now + 120)) →
      TokenManager.getValidToken decode now s = (.token tok, s)) := by
  refine ⟨?_, ?_, ?_, ?_⟩
  · intro tok h
    simp [TokenManager.isTokenValid, h]
  · intro tok e h
    simp [TokenManager.isTokenValid, h]
  · intro s tok ep hg hep hr hp hd
    have hv : TokenManager.isTokenValid decode now tok = false := by
      simp [TokenManager.isTokenValid, hd]
    simp [TokenManager.getValidToken, hg, hep, hv, TokenManager.refreshToken, hr, hp]
  · intro s tok hg hd
    have hv : TokenManager.isTokenValid decode now tok = true := by
      simp [TokenManager.isTokenValid, hd]
    cases hre : s.refreshEndpoint with
    | none => simp [TokenManager.getValidToken, hg, hre, hv]
    | some ep => simp [TokenManager.getValidToken, hg, hre, hv]

/-- Claim C8 witness: with `now = 100`, `tok30` (expiry 130) triggers a
refresh from the idle state and `tok120` (expiry 220) is returned with no
state change. -/
theorem c8_expiry_window_witness :
    TokenManager.getValidToken decodeW 100 sIdle =
      (.startedRefresh 2,
       { sIdle with isRefreshing := true, refreshPromise := some 2,
                    nextPromiseId := 3, networkCalls := 1 }) ∧
    TokenManager.getValidToken decodeW 100 { sIdle with cookie := some "tok120" } =
      (.token "tok120", { sIdle with cookie := some "tok120" }) :=
  ⟨((c8_expiry_window decodeW 100).2.2.1 sIdle "tok30" "https://auth.example/refresh"
      rfl rfl rfl rfl rfl).trans rfl,
   (c8_expiry_window decodeW 100).2.2.2 { sIdle with cookie := some "tok120" }
      "tok120" rfl rfl⟩

/-! ## Claim C1 — single-flighted refresh -/

/-- While a refresh (promise `p`) is in flight and the stored token (if
any) is invalid, one `getValidToken` step joins `p` and leaves the state
untouched. -/
theorem tmStep_joined (decode : String → Option (Option Nat)) (now : Nat)
    (s : TokenManager.TMState) (ep : String) (p : Nat)
    (hep : s.refreshEndpoint = some ep) (hr : s.isRefreshing = true)
    (hp : s.refreshPromise = some p)
    (htok : ∀ t, TokenManager.getToken s = some t →
      TokenManager.isTokenValid decode now t = false) :
    TokenManager.getValidToken decode now s = (.joined p, s) := by
  have hrt : TokenManager.refreshToken s = (.joined p, s) := by
    simp [TokenManager.refreshToken, hr, hp]
  cases hg : TokenManager.getToken s with
  | none => simp [TokenManager.getValidToken, hg, hep, hrt]
  | some t => simp [TokenManager.getValidToken, hg, hep, htok t hg, hrt]

/-- Claim C1: with a refresh endpoint configured, when `N` callers invoke
`getValidToken()` while a refresh is in flight, they all await the *same*
in-flight promise `p`, the state (in particular the network-call count)
does not change — so exactly the one network call that started the
refresh is ever made — and, whatever single outcome `f p` the promise is
resolved or rejected with, all `N` callers resolve with that same value
(`List.replicate`).  The final conjunct covers the refresh start itself:
from an idle state with no stored token, the first caller performs exactly
one network call and installs the promise the others join. -/
theorem c1_single_flight (decode : String → Option (Option Nat)) (now : Nat)
    (s : TokenManager.TMState) (ep : String) (p : Nat) (n : Nat)
    (hep : s.refreshEndpoint = some ep) (hr : s.isRefreshing = true)
    (hp : s.refreshPromise = some p)
    (htok : ∀ t, TokenManager.getToken s = some t →
      TokenManager.isTokenValid decode now t = false) :
    TokenManager.runCallers decode now n s =
      (List.replicate n (.joined p), s) ∧
    (TokenManager.runCallers decode now n s).2.networkCalls = s.networkCalls ∧
    (∀ f, (TokenManager.runCallers decode now n s).1.map (TokenManager.resolveWith f) =
      List.replicate n (f p)) ∧
    (∀ s₀ : TokenManager.TMState, s₀.refreshEndpoint = some ep →
      s₀.isRefreshing = false → TokenManager.getToken s₀ = none →
      TokenManager.getValidToken decode now s₀ =
        (.startedRefresh s₀.nextPromiseId,
         { s₀ with isRefreshing := true,
                   refreshPromise := some s₀.nextPromiseId,
                   nextPromiseId := s₀.nextPromiseId + 1,
                   networkCalls := s₀.networkCalls + 1 })) := by
  have hstep := tmStep_joined decode now s ep p hep hr hp htok
  have hrun : ∀ m, TokenManager.runCallers decode now m s =
      (List.replicate m (.joined p), s) := by
    intro m
    induction m with
    | zero => simp [TokenManager.runCallers]
    | succ k ih => simp [TokenManager.runCallers, hstep, ih, List.replicate_succ]
  refine ⟨hrun n, by rw [hrun n], fun f => ?_, fun s₀ h0ep h0r h0g => ?_⟩
  · rw [hrun n]
    simp [List.map_replicate, TokenManager.resolveWith]
  · simp [TokenManager.getValidToken, h0g, h0ep, TokenManager.refreshToken, h0r]

/-- Claim C1 witness: three callers arriving while promise 7 is in flight
on `sFlight` all join promise 7 and the state (with its one recorded
network call) is unchanged. -/
theorem c1_single_flight_witness :
    TokenManager.runCallers decodeW 100 3 sFlight =
      (List.replicate 3 (.joined 7), sFlight) ∧
    TokenManager.getValidToken decodeW 100 sNoTok =
      (.startedRefresh 2,
       { sNoTok with isRefreshing := true, refreshPromise := some 2,
                     nextPromiseId := 3, networkCalls := 1 }) := by
  have h := c1_single_flight decodeW 100 sFlight "https://auth.example/refresh" 7 3
    rfl rfl rfl
    (fun t ht => by
      have h30 : t = "tok30" := by
        have : some "tok30" = some t := ht
        injection this with h'
        exact h'.symm
      rw [h30]
      rfl)
  exact ⟨h.1, (h.2.2.2 sNoTok rfl rfl rfl).trans rfl⟩

/-! ## Claim C7 — batch aliases (corrected) -/

/-- Claim C7 (amended): in the part_005 variant, an explicit *non-empty*
alias wins, and an operation without an explicit alias gets the
synthesized `{type}_{table}` alias — but an explicit empty-string alias is
falsy in `op.alias || ...` and is silently replaced by the synthesized
name (see the counterexample); the produced document really uses the
computed alias as the field's prefix.  In the src/src variant the
operation type has no alias field at all and every field is aliased
`op{index}`. -/
theorem c7_batch_alias_amended :
    (∀ (op : ServiceB.BatchOpB) a, op.aliasArg = some a → a ≠ "" →
      ServiceB.opAlias op = a) ∧
    (∀ (op : ServiceB.BatchOpB), op.aliasArg = none →
      ServiceB.opAlias op = op.typeTag ++ "_" ++ op.tableOf) ∧
    (∀ (op : ServiceB.BatchOpB), op.aliasArg = some "" →
      ServiceB.opAlias op = op.typeTag ++ "_" ++ op.tableOf) ∧
    (∀ t d oc r al, ∃ rest, ServiceB.batchField (.insert t d oc r al) =
      .ok ("\n            " ++ ServiceB.opAlias (.insert t d oc r al) ++ rest)) ∧
    (∀ t d w r al, ∃ rest, ServiceB.batchField (.update t d w r al) =
      .ok ("\n            " ++ ServiceB.opAlias (.update t d w r al) ++ rest)) ∧
    (∀ t w r al, ∃ rest, ServiceB.batchField (.delete t w r al) =
      .ok ("\n            " ++ ServiceB.opAlias (.delete t w r al) ++ rest)) ∧
    (∀ i t d oc r, ∃ rest, ServiceA.batchField i (.insert t d oc r) =
      .ok ("\n                        op" ++ toString i ++ rest)) ∧
    (∀ i t d w r, ∃ rest, ServiceA.batchField i (.update t d w r) =
      .ok ("\n                        op" ++ toString i ++ rest)) ∧
    (∀ i t w r, ∃ rest, ServiceA.batchField i (.delete t w r) =
      .ok ("\n                        op" ++ toString i ++ rest)) := by
  refine ⟨?_, ?_, ?_,
    fun t d oc r al =>
      ⟨": insert_" ++
        (t ++
          ("(\n              objects: " ++
            (objectToGraphQLParams (.arrV (match d with
                | .arrV items => items
                | v => GArr.cons v .nil)) ++
              (",\n              " ++
                ((match oc with
                  | some c =>
                    "on_conflict: \x7b\n                    constraint: " ++
                    optInterp c.constraint ++
                    ",\n                    update_columns: [" ++
                    jsJoin ", " c.update_columns ++ "]\n                    " ++
                    (match c.whereC with
                     | some w =>
                       if jsFalsy w then ""
                       else ", where: " ++ objectToGraphQLParams w
                     | none => "") ++
                    "\n                  \x7d"
                  | none => "") ++
                  ("\n            ) \x7b\n              " ++
                    (ServiceB.retOrB r ++ "\n            \x7d\n          "))))))),
       by cases d <;> cases oc <;> simp only [ServiceB.batchField, strAppend_assoc]⟩,
    fun t d w r al =>
      ⟨": update_" ++
        (t ++
          ("(\n              _set: " ++
            (objectToGraphQLParams d ++
              (",\n              where: " ++
                (objectToGraphQLParams w ++
                  ("\n            ) \x7b\n              " ++
                    (ServiceB.retOrB r ++ "\n            \x7d\n          "))))))),
       by simp only [ServiceB.batchField, strAppend_assoc]⟩,
    fun t w r al =>
      ⟨": delete_" ++
        (t ++
          ("(\n              where: " ++
            (objectToGraphQLParams w ++
              ("\n            ) \x7b\n              " ++
                (ServiceB.retOrB r ++ "\n            \x7d\n          "))))),
       by simp only [ServiceB.batchField, strAppend_assoc]⟩,
    fun i t d oc r =>
      ⟨": insert_" ++
        (t ++
          ("(\n                            objects: " ++
            (serKU d ++
              ("\n                            " ++
                ((match oc with
                  | some c => if jsFalsy c = true then "" else ", on_conflict: " ++ serKU c
                  | none => "") ++
                  ("\n                        ) \x7b\n                            " ++
                    (ServiceA.retOr r ++
                      "\n                        \x7d\n                    "))))))),
       by simp only [ServiceA.batchField, strAppend_assoc]⟩,
    fun i t d w r =>
      ⟨": update_" ++
        (t ++
          ("(\n                            where: " ++
            (serKU w ++
              ("\n                            _set: " ++
                (serKU d ++
                  ("\n                        ) \x7b\n                            " ++
                    (ServiceA.retOr r ++
                      "\n                        \x7d\n                    "))))))),
       by simp only [ServiceA.batchField, strAppend_assoc]⟩,
    fun i t w r =>
      ⟨": delete_" ++
        (t ++
          ("(\n                            where: " ++
            (serKU w ++
              ("\n                        ) \x7b\n                            " ++
                (ServiceA.retOr r ++
                  "\n                        \x7d\n                    "))))),
       by simp only [ServiceA.batchField, strAppend_assoc]⟩⟩
  · intro op a h ha
    cases op with
    | insert t d oc r al =>
      rw [show (ServiceB.BatchOpB.insert t d oc r al).aliasArg = al from rfl] at h
      subst h
      simp [ServiceB.opAlias, ServiceB.BatchOpB.aliasArg, ha]
    | update t d w r al =>
      rw [show (ServiceB.BatchOpB.update t d w r al).aliasArg = al from rfl] at h
      subst h
      simp [ServiceB.opAlias, ServiceB.BatchOpB.aliasArg, ha]
    | delete t w r al =>
      rw [show (ServiceB.BatchOpB.delete t w r al).aliasArg = al from rfl] at h
      subst h
      simp [ServiceB.opAlias, ServiceB.BatchOpB.aliasArg, ha]
    | unknownTag tag tbl al =>
      rw [show (ServiceB.BatchOpB.unknownTag tag tbl al).aliasArg = al from rfl] at h
      subst h
      simp [ServiceB.opAlias, ServiceB.BatchOpB.aliasArg, ha]
  · intro op h
    cases op with
    | insert t d oc r al =>
      rw [show (ServiceB.BatchOpB.insert t d oc r al).aliasArg = al from rfl] at h
      subst h
      rfl
    | update t d w r al =>
      rw [show (ServiceB.BatchOpB.update t d w r al).aliasArg = al from rfl] at h
      subst h
      rfl
    | delete t w r al =>
      rw [show (ServiceB.BatchOpB.delete t w r al).aliasArg = al from rfl] at h
      subst h
      rfl
    | unknownTag tag tbl al =>
      rw [show (ServiceB.BatchOpB.unknownTag tag tbl al).aliasArg = al from rfl] at h
      subst h
      rfl
  · intro op h
    cases op with
    | insert t d oc r al =>
      rw [show (ServiceB.BatchOpB.insert t d oc r al).aliasArg = al from rfl] at h
      subst h
      rfl
    | update t d w r al =>
      rw [show (ServiceB.BatchOpB.update t d w r al).aliasArg = al from rfl] at h
      subst h
      rfl
    | delete t w r al =>
      rw [show (ServiceB.BatchOpB.delete t w r al).aliasArg = al from rfl] at h
      subst h
      rfl
    | unknownTag tag tbl al =>
      rw [show (ServiceB.BatchOpB.unknownTag tag tbl al).aliasArg = al from rfl] at h
      subst h
      rfl

/-- Claim C7 witness: a non-empty explicit alias is used verbatim, and an
absent alias synthesizes `delete_users`; the aliased field of a concrete
batch document starts with the computed alias. -/
theorem c7_batch_alias_witness :
    ServiceB.opAlias (.delete "users" (.objV wId1) none (some "removed")) = "removed" ∧
    ServiceB.opAlias (.delete "users" (.objV wId1) none none) = "delete_users" :=
  ⟨c7_batch_alias_amended.1 (.delete "users" (.objV wId1) none (some "removed"))
      "removed" rfl (by decide),
   c7_batch_alias_amended.2.1 (.delete "users" (.objV wId1) none none) rfl⟩

/-- Claim C7 counterexample: an operation *carrying an explicit alias*
`''` does not get that alias — the document's top-level field is aliased
with the synthesized `delete_users` instead, contradicting "for every
batch operation carrying an explicit alias, the produced batch document
uses that alias". -/
theorem c7_batch_alias_counterexample :
    ServiceB.opAlias (.delete "users" (.objV wId1) none (some "")) = "delete_users" ∧
    ServiceB.batch [.delete "users" (.objV wId1) none (some "")] =
      .ok "mutation \x7b \n            delete_users: delete_users(\n              where: \x7bid: \x7b_eq: 1\x7d\x7d\n            ) \x7b\n              affected_rows\n            \x7d\n           \x7d" := by
  exact ⟨rfl, rfl⟩

/-! ## Claim C5 — aggregate blocks (corrected) -/

/-- Claim C5 (amended): in the src/src variant (`createQuery`), supplying
a (truthy) `aggregate` appends an additional `{table}_aggregate` block
alongside the primary selection, which stays exactly as in the
aggregate-free document; in the part_005 variant the aggregate argument
instead *replaces* the primary selection with an inline `aggregate`
sub-block under the same table field and no `{table}_aggregate` block is
produced (see the counterexample). -/
theorem c5_aggregate_amended (t sel : String) (w : Option GObj)
    (l o : Option Int) (ob : Option GValue) (a : String) (ha : a ≠ "") :
    ServiceA.createQuery t sel w l o ob (some a) =
      "query \x7b " ++
        (t ++ ServiceA.argPart w l o ob ++ " \x7b " ++ sel ++ " \x7d" ++
         "\n            " ++ t ++ "_aggregate" ++ ServiceA.argPart w l o ob ++
         " \x7b\n                " ++ a ++ "\n            \x7d\n        ") ++
      " \x7d" ∧
    ServiceA.createQuery t sel w l o ob none =
      "query \x7b " ++ (t ++ ServiceA.argPart w l o ob ++ " \x7b " ++ sel ++ " \x7d") ++
      " \x7d" := by
  constructor
  · simp [ServiceA.createQuery, ha]
  · rfl

/-- Claim C5 witness: the spec's `users` example with `aggregate: count`
keeps the `{ id name }` primary selection and appends a `users_aggregate`
block. -/
theorem c5_aggregate_witness :
    ServiceA.createQuery "users" "id name" (some wRole) none none none (some "count") =
      "query \x7b users(where: \x7brole:\x7b_eq:\"admin\"\x7d\x7d) \x7b id name \x7d\n            users_aggregate(where: \x7brole:\x7b_eq:\"admin\"\x7d\x7d) \x7b\n                count\n            \x7d\n         \x7d" :=
  ((c5_aggregate_amended "users" "id name" (some wRole) none none none "count"
    (by decide)).1).trans rfl

/-- Claim C5 counterexample: in the part_005 variant the same request
produces a document whose only selection is the `aggregate` sub-block —
the primary `id name` selection is gone and no `users_aggregate` field
exists, contradicting "the produced document contains both the primary
table selection and an additional {table}_aggregate block". -/
theorem c5_aggregate_counterexample :
    ServiceB.get "users" (.fieldList ["id", "name"]) none none none none (some "count") =
      "query \x7b\n      users \x7b\n        aggregate \x7b\n          count\n        \x7d\n      \x7d\n    \x7d" ∧
    strContains
      (ServiceB.get "users" (.fieldList ["id", "name"]) none none none none (some "count"))
      "users_aggregate" = false ∧
    strContains
      (ServiceB.get "users" (.fieldList ["id", "name"]) none none none none (some "count"))
      "id name" = false := by
  exact ⟨rfl, rfl, rfl⟩

/-! ## Claim C4 — query argument group (code bug in part_005) -/

set_option maxRecDepth 65536 in
/-- Claim C4: in the src/src variant, `createQuery` joins the present
argument clauses with `", "` inside exactly one parenthesis group and
omits the parentheses when no clause is present (first conjunct), and the
spec's example `get('users', {select:['id','name'],
where:{role:{_eq:'admin'}}, limit:10})` produces a document
token-equivalent to `query { users(where: {role: {_eq: "admin"}}, limit:
10) { id name } }` (second conjunct; GraphQL ignores commas and white
space between tokens).  The part_005 variant, however, closes the `where`
clause's parenthesis immediately and then appends `limit` outside of it
plus an extra `)`: on the very same input it emits
`users(where: ...)limit: 10)` — one `(` against two `)` — which is not
token-equivalent to the claimed document (remaining conjuncts). -/
theorem c4_query_arguments_behavior :
    (∀ t sel w l o ob, ServiceA.createQuery t sel w l o ob none =
      "query \x7b " ++
        (t ++
          (if (ServiceA.createQueryArgs w l o ob).isEmpty then ""
           else "(" ++ jsJoin ", " (ServiceA.createQueryArgs w l o ob) ++ ")") ++
          " \x7b " ++ sel ++ " \x7d") ++ " \x7d") ∧
    gqlTokens
      (ServiceA.get "users" (.fieldList ["id", "name"]) (some wRole) (some 10)
        none none none) =
      gqlTokens "query \x7b users(where: \x7brole: \x7b_eq: \"admin\"\x7d\x7d, limit: 10) \x7b id name \x7d \x7d" ∧
    ServiceB.get "users" (.fieldList ["id", "name"]) (some wRole) (some 10)
        none none none =
      "query \x7b\n      users(where: \x7brole: \x7b_eq: \"admin\"\x7d\x7d)limit: 10) \x7b\n        id name\n      \x7d\n    \x7d" ∧
    countChar
      (ServiceB.get "users" (.fieldList ["id", "name"]) (some wRole) (some 10)
        none none none) '(' = 1 ∧
    countChar
      (ServiceB.get "users" (.fieldList ["id", "name"]) (some wRole) (some 10)
        none none none) ')' = 2 ∧
    gqlTokens
      (ServiceB.get "users" (.fieldList ["id", "name"]) (some wRole) (some 10)
        none none none) ≠
      gqlTokens "query \x7b users(where: \x7brole: \x7b_eq: \"admin\"\x7d\x7d, limit: 10) \x7b id name \x7d \x7d" := by
  refine ⟨fun t sel w l o ob => rfl, by decide, by decide, by decide, by decide, by decide⟩

/-! ## Claim C6 — batch document shape (corrected)

The lemmas `sl...` below evaluate `stripInsig` on the literal template
fragments of variant A's document builders; `strip_*` normalise the
single-operation and batch documents to the shared field shapes
`insBodyStr`/`updBodyStr`/`delBodyStr`. -/

theorem slMutIns : stripInsig "\n        mutation \x7b\n            insert_" = "mutation\x7binsert_" := rfl
theorem slMutUpd : stripInsig "\n        mutation \x7b\n            update_" = "mutation\x7bupdate_" := rfl
theorem slMutDel : stripInsig "\n        mutation \x7b\n            delete_" = "mutation\x7bdelete_" := rfl
theorem slLPar : stripInsig "(" = "(" := rfl
theorem slObjects : stripInsig "objects: " = "objects:" := rfl
theorem slCloseBrace1 : stripInsig ") \x7b\n                " = ")\x7b" := rfl
theorem slTail1 : stripInsig "\n            \x7d\n        \x7d\n    " = "\x7d\x7d" := rfl
theorem slWhereOpen : stripInsig "(\n                where: " = "(where:" := rfl
theorem slSet : stripInsig ",\n                _set: " = "_set:" := rfl
theorem slCloseBrace2 : stripInsig "\n            ) \x7b\n                " = ")\x7b" := rfl
theorem slWhereInline : stripInsig "(where: " = "(where:" := rfl
theorem slMutBatch : stripInsig "mutation \x7b " = "mutation\x7b" := rfl
theorem slBraceEnd : stripInsig " \x7d" = "\x7d" := rfl
theorem slNl : stripInsig "\n" = "" := rfl
theorem slOp : stripInsig "\n                        op" = "op" := rfl
theorem slInsTag : stripInsig ": insert_" = ":insert_" := rfl
theorem slUpdTag : stripInsig ": update_" = ":update_" := rfl
theorem slDelTag : stripInsig ": delete_" = ":delete_" := rfl
theorem slObjectsB : stripInsig "(\n                            objects: " = "(objects:" := rfl
theorem slPadB : stripInsig "\n                            " = "" := rfl
theorem slCloseB : stripInsig "\n                        ) \x7b\n                            " = ")\x7b" := rfl
theorem slTailB : stripInsig "\n                        \x7d\n                    " = "\x7d" := rfl
theorem slWhereB : stripInsig "(\n                            where: " = "(where:" := rfl
theorem slSetB : stripInsig "\n                            _set: " = "_set:" := rfl
theorem slPadCloseB : stripInsig "\n                            \n                        ) \x7b\n                            " = ")\x7b" := rfl
theorem slTailNlB : stripInsig "\n                        \x7d\n                    \n" = "\x7d" := rfl
theorem slTs0 : stripInsig (toString (0 : Nat)) = "0" := rfl
theorem slTs1 : stripInsig (toString (1 : Nat)) = "1" := rfl
theorem slTs2 : stripInsig (toString (2 : Nat)) = "2" := rfl
theorem slTailSpB : stripInsig "\n                        \x7d\n                     \x7d" = "\x7d\x7d" := rfl

/-- The single-operation insert document, normalised. -/
theorem strip_insert_single (t : String) (l : GArr) (r : String)
    (hl : l.length ≠ 0) :
    (ServiceA.insert t (.arrV l) none (.one r)).map stripInsig =
      .ok ("mutation\x7b" ++ insBodyStr t (.arrV l) r ++ "\x7d") := by
  simp only [ServiceA.insert, RetArg.joinA, ServiceA.createInsertMutation, jsFalsy]
  simp only [Bool.false_eq_true, if_false, hl, if_neg, ite_false, jsJoin]
  simp [insBodyStr, Except.map, stripInsig_append, strAppend_assoc,
    slMutIns, slLPar, slObjects, slCloseBrace1, slTail1, hl]
  rw [strMerge "mutation\x7b" "insert_" "mutation\x7binsert_" rfl,
    strMerge "(" "objects:" "(objects:" rfl]

/-- The single-operation update document, normalised. -/
theorem strip_update_single (t : String) (w d : GValue) (r : String) :
    stripInsig (ServiceA.createUpdateMutation t d w r) =
      "mutation\x7b" ++ updBodyStr t w d r ++ "\x7d" := by
  simp only [ServiceA.createUpdateMutation, updBodyStr, stripInsig_append,
    strAppend_assoc, slMutUpd, slWhereOpen, slSet, slCloseBrace2, slTail1]
  rw [strMerge "mutation\x7b" "update_" "mutation\x7bupdate_" rfl,
    show ("\x7d" : String) ++ "\x7d" = "\x7d\x7d" from rfl]

/-- The single-operation delete document, normalised. -/
theorem strip_delete_single (t : String) (w : GValue) (r : String) :
    stripInsig (ServiceA.createDeleteMutation t w r) =
      "mutation\x7b" ++ delBodyStr t w r ++ "\x7d" := by
  simp only [ServiceA.createDeleteMutation, delBodyStr, stripInsig_append,
    strAppend_assoc, slMutDel, slWhereInline, slCloseBrace1, slTail1]
  rw [strMerge "mutation\x7b" "delete_" "mutation\x7bdelete_" rfl,
    show ("\x7d" : String) ++ "\x7d" = "\x7d\x7d" from rfl]

/-- A batch containing any operation with an unknown type tag throws
`ValidationError('error.invalidOperationType')` while building, before
any network call. -/
theorem batchFields_unknown (tag : String) :
    ∀ (idx : Nat) (ops : List ServiceA.BatchOp),
      ServiceA.BatchOp.unknownTag tag ∈ ops →
      ServiceA.batchFields idx ops =
        .error (.validationError "error.invalidOperationType") := by
  intro idx ops
  induction ops generalizing idx with
  | nil => intro h; cases h
  | cons op rest ih =>
    intro h
    rcases List.mem_cons.mp h with h1 | h2
    · rw [← h1]
      rfl
    · cases op with
      | insert t d oc r =>
        simp [ServiceA.batchFields, ServiceA.batchField, ih (idx + 1) h2]
      | update t d w r =>
        simp [ServiceA.batchFields, ServiceA.batchField, ih (idx + 1) h2]
      | delete t w r =>
        simp [ServiceA.batchFields, ServiceA.batchField, ih (idx + 1) h2]
      | unknownTag tg => rfl

/-- The batch document for one insert, one update and one delete,
normalised to the three aliased single-operation shapes. -/
theorem strip_batch_triple (tI : String) (lI : GArr) (rI : String)
    (tU : String) (dU wU : GValue) (rU : String)
    (tD : String) (wD : GValue) (rD : String)
    (hrI : rI ≠ "") (hrU : rU ≠ "") (hrD : rD ≠ "") :
    (ServiceA.batch
      [.insert tI (.arrV lI) none (some rI),
       .update tU dU wU (some rU),
       .delete tD wD (some rD)]).map stripInsig =
      .ok ("mutation\x7b" ++ "op0:" ++ insBodyStr tI (.arrV lI) rI ++
        "op1:" ++ updBodyStr tU wU dU rU ++
        "op2:" ++ delBodyStr tD wD rD ++ "\x7d") := by
  simp [ServiceA.batch, ServiceA.createBatchMutation, ServiceA.batchFields,
    ServiceA.batchField, ServiceA.retOr, hrI, hrU, hrD, jsJoin, Except.map,
    insBodyStr, updBodyStr, delBodyStr, stripInsig_append, strAppend_assoc,
    slMutBatch, slBraceEnd, slNl, slOp, slInsTag, slUpdTag, slDelTag,
    slObjectsB, slPadB, slCloseB, slTailB, slWhereB, slSetB,
    slPadCloseB, slTailNlB, slTs0, slTs1, slTs2, slTailSpB,
    strEmpty_append, strAppend_empty]
  rw [strMerge "op" "0" "op0" rfl, strMerge "op0" ":insert_" "op0:insert_" rfl,
    strMerge "op" "1" "op1" rfl, strMerge "op1" ":update_" "op1:update_" rfl,
    strMerge "op" "2" "op2" rfl, strMerge "op2" ":delete_" "op2:delete_" rfl,
    strMerge "mutation\x7b" "op0:insert_" "mutation\x7bop0:insert_" rfl,
    strMerge "mutation\x7bop0:" "insert_" "mutation\x7bop0:insert_" rfl,
    strMerge "\x7d" "op1:update_" "\x7dop1:update_" rfl,
    strMerge "\x7dop1:" "update_" "\x7dop1:update_" rfl,
    strMerge "\x7d" "op2:delete_" "\x7dop2:delete_" rfl,
    strMerge "\x7dop2:" "delete_" "\x7dop2:delete_" rfl]

/-- Claim C6 (amended): `batch([])` fails with `ValidationError` and zero
network calls; an operation with an unknown type tag fails with
`ValidationError`; `batch` with one insert (data already a non-empty
list, no on-conflict clause), one update and one delete produces a single
mutation document with exactly the three aliased top-level fields `op0`,
`op1`, `op2`, each coinciding — after deleting the GraphQL-insignificant
white space and commas — with the corresponding single-operation document
shape.  The insert restriction is forced: the batch builder serializes
`op.data` without the one-element-list normalization the single-operation
insert performs (see the counterexample), and its `on_conflict` clause
keeps string values quoted where the single-operation insert unquotes
them. -/
theorem c6_batch_document_amended (tI : String) (lI : GArr) (rI : String)
    (tU : String) (dU wU : GValue) (rU : String)
    (tD : String) (wD : GValue) (rD : String)
    (hlI : lI.length ≠ 0) (hrI : rI ≠ "") (hrU : rU ≠ "") (hrD : rD ≠ "") :
    ServiceA.batch [] =
      .error (.validationError "error.noOperationsBatchProvided") ∧
    (∀ ops : List ServiceA.BatchOp,
      (∃ tag, ServiceA.BatchOp.unknownTag tag ∈ ops) →
      ServiceA.batch ops =
        .error (.validationError "error.invalidOperationType")) ∧
    (ServiceA.insert tI (.arrV lI) none (.one rI)).map stripInsig =
      .ok ("mutation\x7b" ++ insBodyStr tI (.arrV lI) rI ++ "\x7d") ∧
    stripInsig (ServiceA.createUpdateMutation tU dU wU rU) =
      "mutation\x7b" ++ updBodyStr tU wU dU rU ++ "\x7d" ∧
    stripInsig (ServiceA.createDeleteMutation tD wD rD) =
      "mutation\x7b" ++ delBodyStr tD wD rD ++ "\x7d" ∧
    (ServiceA.batch
      [.insert tI (.arrV lI) none (some rI),
       .update tU dU wU (some rU),
       .delete tD wD (some rD)]).map stripInsig =
      .ok ("mutation\x7b" ++ "op0:" ++ insBodyStr tI (.arrV lI) rI ++
        "op1:" ++ updBodyStr tU wU dU rU ++
        "op2:" ++ delBodyStr tD wD rD ++ "\x7d") := by
  refine ⟨rfl, ?_, strip_insert_single tI lI rI hlI,
    strip_update_single tU wU dU rU,
    strip_delete_single tD wD rD,
    strip_batch_triple tI lI rI tU dU wU rU tD wD rD hrI hrU hrD⟩
  rintro ops ⟨tag, hmem⟩
  cases ops with
  | nil => cases hmem
  | cons op rest =>
    simp [ServiceA.batch, ServiceA.createBatchMutation,
      batchFields_unknown tag 0 _ hmem]

set_option maxRecDepth 65536 in
/-- Claim C6 witness: the theorem evaluated on a concrete triple (insert
`[{a: 1}]` returning `id`, update `{b: 2}` where `{id: {_eq: 1}}`, delete
where `{id: {_eq: 2}}`). -/
theorem c6_batch_document_witness :
    (ServiceA.batch
      [.insert "users" (.arrV (.cons (.objV (.cons "a" (.numV 1) .nil)) .nil))
         none (some "id"),
       .update "users" (.objV (.cons "b" (.numV 2) .nil)) (.objV wId1)
         (some "affected_rows"),
       .delete "users" (.objV wId2) (some "affected_rows")]).map stripInsig =
      .ok "mutation\x7bop0:insert_users(objects:[\x7ba:1\x7d])\x7bid\x7dop1:update_users(where:\x7bid:\x7b_eq:1\x7d\x7d_set:\x7bb:2\x7d)\x7baffected_rows\x7dop2:delete_users(where:\x7bid:\x7b_eq:2\x7d\x7d)\x7baffected_rows\x7d\x7d" :=
  ((c6_batch_document_amended "users"
      (.cons (.objV (.cons "a" (.numV 1) .nil)) .nil) "id"
      "users" (.objV (.cons "b" (.numV 2) .nil)) (.objV wId1) "affected_rows"
      "users" (.objV wId2) "affected_rows"
      (by decide) (by decide) (by decide) (by decide)).2.2.2.2.2).trans rfl

set_option maxRecDepth 65536 in
/-- Claim C6 counterexample: a batch insert operation whose `data` is a
single record is serialized as `objects: {a:1}` — without the
one-element-list normalization the single-operation insert applies
(`objects: [{a:1}]`) — so the batch field does not match the
single-operation document shape for its type. -/
theorem c6_batch_counterexample :
    (ServiceA.batch
      [.insert "users" (.objV (.cons "a" (.numV 1) .nil)) none none,
       .update "users" (.objV (.cons "b" (.numV 2) .nil)) (.objV wId1) none,
       .delete "users" (.objV wId2) none]).map stripInsig =
      .ok "mutation\x7bop0:insert_users(objects:\x7ba:1\x7d)\x7baffected_rows\x7dop1:update_users(where:\x7bid:\x7b_eq:1\x7d\x7d_set:\x7bb:2\x7d)\x7baffected_rows\x7dop2:delete_users(where:\x7bid:\x7b_eq:2\x7d\x7d)\x7baffected_rows\x7d\x7d" ∧
    (ServiceA.insert "users" (.objV (.cons "a" (.numV 1) .nil)) none
      (.one "affected_rows")).map stripInsig =
      .ok "mutation\x7binsert_users(objects:[\x7ba:1\x7d])\x7baffected_rows\x7d\x7d" ∧
    ("mutation\x7bop0:insert_users(objects:\x7ba:1\x7d)\x7baffected_rows\x7dop1:update_users(where:\x7bid:\x7b_eq:1\x7d\x7d_set:\x7bb:2\x7d)\x7baffected_rows\x7dop2:delete_users(where:\x7bid:\x7b_eq:2\x7d\x7d)\x7baffected_rows\x7d\x7d" : String) ≠
      "mutation\x7bop0:insert_users(objects:[\x7ba:1\x7d])\x7baffected_rows\x7dop1:update_users(where:\x7bid:\x7b_eq:1\x7d\x7d_set:\x7bb:2\x7d)\x7baffected_rows\x7dop2:delete_users(where:\x7bid:\x7b_eq:2\x7d\x7d)\x7baffected_rows\x7d\x7d" := by
  exact ⟨rfl, rfl, by decide⟩
